import Mathlib

/-!
Verification development for the upload-ingestion and AI-content-generation
pipeline of the swift-study-box backend.

The Python sources embedded here are:
  app/services/ai_service.py      (class AIService)
  app/services/upload_service.py  (class UploadService)
  app/tasks/ai_processing.py      (celery tasks generate_quiz_async,
                                   generate_concept_map_async)

Modelling conventions:
  - Python strings are Lean `String`; all character-level operations are
    re-implemented over `String.data` so that they compute inside the kernel.
    Only the ASCII fragment is modelled (the regexes and case conversions in
    the source are applied to ASCII test data).
  - Raw file bytes are modelled as `String` (`Bytes`).
  - Library calls with effects (PyPDF2, PIL, pytesseract, storage download,
    the OpenAI chat completion endpoint, json.loads, and the database row id
    generator) are oracles passed in as explicit environment records.  A
    Python call that may raise is an oracle returning `Except String _`, the
    error component being the exception message.
  - A Python `try/except` block is a `match` on the `Except` value.
  - The expression datetime.utcnow() inside `_process_file_async` uses a
    name the module never imports, so evaluating it unconditionally raises
    NameError; it is embedded as the constant `datetime_utcnow` holding that
    error.
  - Python dicts with string keys are association lists (`Dict`); indexing
    `d[k]` is `dictGetE` (raising `KeyError`), `d.get(k)` is `dictGet`,
    `d.get(k, v)` is `dictGetD`, and assignment `d[k] = v` is `dictSet`.
  - A SQLAlchemy session is collapsed into pure record updates: a task
    result carries the rows that the single final `commit()` would have
    persisted, and an exception before the commit persists nothing.
-/

/-! ## Character-level string primitives (kernel-computable) -/

/-- `text.lower()`: lower-case every character (ASCII fragment). -/
def lowerStr (s : String) : String := ⟨s.data.map Char.toLower⟩

/-- `s[:n]`: the first `n` characters of a string. -/
def takeStr (s : String) (n : Nat) : String := ⟨s.data.take n⟩

/-- Characters of `s.strip()`: drop whitespace from both ends. -/
def trimChars (l : List Char) : List Char :=
  ((l.dropWhile Char.isWhitespace).reverse.dropWhile Char.isWhitespace).reverse

/-- `s.strip()`. -/
def trimStr (s : String) : String := ⟨trimChars s.data⟩

/-- Split a character list at every occurrence of the separator character. -/
def splitChars (sep : Char) : List Char → List (List Char)
  | [] => [[]]
  | c :: rest =>
    match splitChars sep rest with
    | [] => if c = sep then [[], []] else [[c]]
    | h :: t => if c = sep then [] :: h :: t else (c :: h) :: t

/-- Python str.split with a one-character separator, as used by the source
(the content is split on the period character, the keyword reply on the
comma). -/
def pySplit (s : String) (sep : Char) : List String :=
  (splitChars sep s.data).map String.mk

/-- `sep.join(l)`. -/
def joinWith (sep : String) : List String → String
  | [] => ""
  | [x] => x
  | x :: xs => x ++ sep ++ joinWith sep xs

/-- Word characters of the regex `\w` (ASCII fragment). -/
def isWordChar (c : Char) : Bool := c.isAlphanum || c = '_'

/-- Accumulating scanner behind `findWords`; `cur` holds the reversed
characters of the word currently being read. -/
def findWordsAux : List Char → List Char → List String
  | [], cur => if cur.isEmpty then [] else [String.mk cur.reverse]
  | c :: rest, cur =>
    if isWordChar c then findWordsAux rest (c :: cur)
    else if cur.isEmpty then findWordsAux rest []
    else String.mk cur.reverse :: findWordsAux rest []

/-- Python re.findall with the word regex: the maximal runs of word characters. -/
def findWords (s : String) : List String := findWordsAux s.data []

/-- `pat in hay` for strings: substring containment. -/
def containsSub (pat : List Char) : List Char → Bool
  | [] => pat.isEmpty
  | c :: rest => pat.isPrefixOf (c :: rest) || containsSub pat rest

/-- Scanner behind `pyTitle`; the flag records whether the previous
character was alphabetic. -/
def pyTitleAux : List Char → Bool → List Char
  | [], _ => []
  | c :: rest, prevAlpha =>
    if c.isAlpha then
      (if prevAlpha then c.toLower else c.toUpper) :: pyTitleAux rest true
    else c :: pyTitleAux rest false

/-- Python str.title() (ASCII fragment): upper-case every alphabetic
character that follows a non-alphabetic one, lower-case the other
alphabetic characters. -/
def pyTitle (w : String) : String := ⟨pyTitleAux w.data false⟩

/-- Decimal digit character. -/
def digitChar (d : Nat) : Char :=
  match d with
  | 0 => '0' | 1 => '1' | 2 => '2' | 3 => '3' | 4 => '4'
  | 5 => '5' | 6 => '6' | 7 => '7' | 8 => '8' | _ => '9'

/-- Fuelled decimal printer (structural recursion so the kernel can run it). -/
def natCharsAux (fuel n : Nat) : List Char :=
  match fuel with
  | 0 => []
  | fuel + 1 =>
    if n < 10 then [digitChar n]
    else natCharsAux fuel (n / 10) ++ [digitChar (n % 10)]

/-- `str(i)` for a natural number. -/
def strOfNat (n : Nat) : String := ⟨natCharsAux (n + 1) n⟩

/-- A single apostrophe, written via its code point. -/
def apos : String := String.mk [Char.ofNat 39]

/-! ## Python dict values and dict operations -/

/-- Values stored in the Python dicts handled by the pipeline: strings,
ints, lists of strings, and the width/height pair returned by
`get_image_dimensions` (the float literal `1.0` used as the default edge
strength is modelled as `num 1`). -/
inductive PVal where
  | str (s : String)
  | num (n : Nat)
  | strList (l : List String)
  | dims (w h : Nat)
  deriving DecidableEq, Repr

/-- A Python dict with string keys, as an association list in insertion
order. -/
abbrev Dict := List (String × PVal)

/-- `d.get(k)`: first binding of the key, if any. -/
def dictGet : Dict → String → Option PVal
  | [], _ => none
  | (k', v') :: rest, k => if k' = k then some v' else dictGet rest k

/-- `d[k]`: raises `KeyError` when the key is absent. -/
def dictGetE (d : Dict) (k : String) : Except String PVal :=
  match dictGet d k with
  | some v => Except.ok v
  | none => Except.error ("KeyError: " ++ k)

/-- `d.get(k, v)`. -/
def dictGetD (d : Dict) (k : String) (v : PVal) : PVal :=
  (dictGet d k).getD v

/-- `d[k] = v`: replace the binding in place, or append a new one. -/
def dictSet : Dict → String → PVal → Dict
  | [], k, v => [(k, v)]
  | (k', v') :: rest, k, v =>
    if k' = k then (k, v) :: rest else (k', v') :: dictSet rest k v

/-- Python truthiness of an optional string (`None` and `""` are falsy). -/
def truthyOptStr : Option String → Bool
  | none => false
  | some s => !s.data.isEmpty

/-! ## Configuration and AI-backend oracles -/

/-- The one configuration field the pipeline branches on
(`settings.OPENAI_API_KEY`, `Optional[str]`). -/
structure Settings where
  OPENAI_API_KEY : Option String

/-- `if not settings.OPENAI_API_KEY:` uses Python truthiness. -/
def Settings.keySet (s : Settings) : Bool := truthyOptStr s.OPENAI_API_KEY

/-- The parsed shape the concept-map generator works with:
`{"nodes": [...], "connections": [...]}` (each entry again a dict). -/
structure CMapData where
  nodes : List Dict
  connections : List Dict
  deriving DecidableEq

/-- Oracles for the AI backend: one chat-completion call per task (the
argument is the length-capped text the source interpolates into the
prompt), plus `json.loads` at the two result types.  An `Except.error`
models a raised exception (network failure, non-2xx, malformed JSON). -/
structure AIEnv where
  summary_chat : String → Except String String
  keywords_chat : String → Except String String
  quiz_chat : String → String → Nat → Except String String
  map_chat : String → Except String String
  json_loads_quiz : String → Except String (List Dict)
  json_loads_map : String → Except String CMapData

/-! ## AIService: deterministic fallbacks (ai_service.py, lines 211-280) -/

/-- `AIService._generate_simple_summary`: the first 3 fragments of the
text split on periods, joined by period-space, plus a trailing period. -/
def generate_simple_summary (text : String) : String :=
  joinWith ". " ((pySplit text '.').take 3) ++ "."

/-- One `word_freq[word] = word_freq.get(word, 0) + 1` step. -/
def bumpFreq : List (String × Nat) → String → List (String × Nat)
  | [], w => [(w, 1)]
  | (w', n) :: rest, w =>
    if w' = w then (w, n + 1) :: rest else (w', n) :: bumpFreq rest w

/-- Stable insertion (descending by count) behind `sortByFreq`. -/
def insertDescFreq (p : String × Nat) : List (String × Nat) → List (String × Nat)
  | [] => [p]
  | q :: rest => if q.2 > p.2 then q :: insertDescFreq p rest else p :: q :: rest

/-- `sorted(word_freq.items(), key=lambda x: x[1], reverse=True)`:
the CPython sort is stable and dicts iterate in insertion order, so ties keep
first-seen order; modelled by a stable insertion sort, descending by
count. -/
def sortByFreq : List (String × Nat) → List (String × Nat)
  | [] => []
  | p :: rest => insertDescFreq p (sortByFreq rest)

/-- `AIService._extract_simple_keywords`: tokenize the lowered text, count
the frequency of each token longer than 3 characters, return the 10 most
frequent (ties by first occurrence). -/
def extract_simple_keywords (text : String) : List String :=
  let words := findWords (lowerStr text)
  let word_freq := words.foldl (fun f w => if 3 < w.length then bumpFreq f w else f) []
  ((sortByFreq word_freq).take 10).map Prod.fst

/-- The question dict appended by `_generate_simple_quiz` for one qualifying
sentence (note: it has no `"type"` key). -/
def mkSimpleQuestion (sentence : String) : Dict :=
  [("question", PVal.str ("What is mentioned in: " ++ apos ++ takeStr sentence 50
      ++ "..." ++ apos ++ "?")),
   ("options", PVal.strList ["Option A", "Option B", "Option C", "Option D"]),
   ("correct_answer", PVal.num 0),
   ("explanation", PVal.str "This is a placeholder explanation."),
   ("difficulty", PVal.str "medium")]

/-- The stripped non-empty fragments of the content split on periods. -/
def quizSentences (content : String) : List String :=
  ((pySplit content '.').map trimStr).filter (fun s => !s.data.isEmpty)

/-- `AIService._generate_simple_quiz`: scan the first
`min(num_questions, len(sentences))` sentences and emit a placeholder
question for each one longer than 20 characters. -/
def generate_simple_quiz (content : String) (num_questions : Nat) : List Dict :=
  let sentences := quizSentences content
  (((sentences.take num_questions).filter (fun s => 20 < s.length)).map mkSimpleQuestion)

/-- `list(set(...))[:10]` over the tokens longer than 4 characters.  CPython
set order is unspecified; it is modelled as first-occurrence order. -/
def uniqueWords (content : String) : List String :=
  (((findWords (lowerStr content)).filter (fun w => 4 < w.length)).foldl
    (fun acc w => if acc.contains w then acc else acc ++ [w]) []).take 10

/-- The node dict of `_generate_simple_concept_map` for index `i`. -/
def mkSimpleNode (i : Nat) (word : String) : Dict :=
  [("id", PVal.str (strOfNat i)),
   ("label", PVal.str (pyTitle word)),
   ("type", PVal.str (if i < 3 then "main" else "sub")),
   ("x", PVal.num ((i % 3) * 100)),
   ("y", PVal.num ((i / 3) * 100)),
   ("description", PVal.str ("Concept related to " ++ word))]

/-- The edge dict of `_generate_simple_concept_map` from node `i` to node
`i + 1`. -/
def mkSimpleConn (i : Nat) : Dict :=
  [("from", PVal.str (strOfNat i)),
   ("to", PVal.str (strOfNat (i + 1))),
   ("label", PVal.str "related to"),
   ("type", PVal.str "direct")]

/-- `AIService._generate_simple_concept_map`: one node per unique long word
(at most 10), and a linear chain of edges `i -> i+1`. -/
def generate_simple_concept_map (content : String) : CMapData :=
  let nodes := (uniqueWords content).enum.map (fun p => mkSimpleNode p.1 p.2)
  let connections := (List.range (nodes.length - 1)).map mkSimpleConn
  ⟨nodes, connections⟩

/-! ## AIService: analyzer and generator entry points (ai_service.py) -/

/-- `AIService.generate_summary`: AI mode when a key is configured, any
exception falls back to the simple summary. -/
def generate_summary (s : Settings) (ai : AIEnv) (text : String) : String :=
  if !s.keySet then generate_simple_summary text
  else
    match ai.summary_chat (takeStr text 4000) with
    | Except.ok reply => trimStr reply
    | Except.error _ => generate_simple_summary text

/-- `AIService.extract_keywords`: AI mode splits the reply on commas and
keeps the non-empty stripped entries; any exception falls back. -/
def extract_keywords (s : Settings) (ai : AIEnv) (text : String) : List String :=
  if !s.keySet then extract_simple_keywords text
  else
    match ai.keywords_chat (takeStr text 4000) with
    | Except.ok reply =>
        (pySplit (trimStr reply) ',').filterMap
          (fun kw => if (trimStr kw).data.isEmpty then none else some (trimStr kw))
    | Except.error _ => extract_simple_keywords text

/-- The hard-coded function-word list for Italian. -/
def italian_words : List String :=
  ["il", "la", "di", "che", "e", "un", "una", "per", "con", "del", "della"]

/-- The hard-coded function-word list for English. -/
def english_words : List String :=
  ["the", "and", "of", "to", "a", "in", "is", "it", "you", "that", "he"]

/-- `sum(1 for word in ws if word in text_lower)`: how many of the listed
words occur as substrings of the lowered text. -/
def langWordCount (text_lower : String) (ws : List String) : Nat :=
  ws.countP (fun w => containsSub w.data text_lower.data)

/-- `AIService.detect_language`: purely word-count based, no AI branch.
Returns `"it"` only when the Italian count strictly exceeds the English
count. -/
def detect_language (text : String) : String :=
  let text_lower := lowerStr text
  if langWordCount text_lower italian_words > langWordCount text_lower english_words
  then "it" else "en"

/-- `AIService.generate_quiz_questions`: fallback without a key; otherwise
one chat attempt whose reply is `json.loads`-parsed, any exception falling
back to the simple quiz.  The `Except` result type records that the caller
would see a raised exception as `Except.error`. -/
def generate_quiz_questions (s : Settings) (ai : AIEnv) (content difficulty : String)
    (num_questions : Nat) : Except String (List Dict) :=
  if !s.keySet then Except.ok (generate_simple_quiz content num_questions)
  else
    match ai.quiz_chat (takeStr content 3000) difficulty num_questions with
    | Except.error _ => Except.ok (generate_simple_quiz content num_questions)
    | Except.ok reply =>
      match ai.json_loads_quiz (trimStr reply) with
      | Except.error _ => Except.ok (generate_simple_quiz content num_questions)
      | Except.ok qs => Except.ok qs

/-- `AIService.generate_concept_map`: same shape as the quiz generator. -/
def generate_concept_map (s : Settings) (ai : AIEnv) (content : String) :
    Except String CMapData :=
  if !s.keySet then Except.ok (generate_simple_concept_map content)
  else
    match ai.map_chat (takeStr content 3000) with
    | Except.error _ => Except.ok (generate_simple_concept_map content)
    | Except.ok reply =>
      match ai.json_loads_map (trimStr reply) with
      | Except.error _ => Except.ok (generate_simple_concept_map content)
      | Except.ok cm => Except.ok cm

/-! ## AIService: extraction (ai_service.py, lines 24-73) -/

/-- Raw file bytes (modelled as strings of bytes). -/
abbrev Bytes := String

/-- Oracles for the effectful libraries used during upload processing.
`pdf_pages` stands for `PyPDF2.PdfReader(...).pages[i].extract_text()`:
either the per-page texts or the parse exception of a corrupt container. -/
structure UploadEnv where
  download_file : String → Except String Bytes
  pdf_pages : Bytes → Except String (List String)
  image_to_string : Bytes → Except String String
  image_size : Bytes → Except String (Nat × Nat)
  decode_utf8 : Bytes → Except String String

/-- `AIService.extract_pdf_text`: concatenate the page texts with newline
separators and strip; a parse failure is re-raised as `AIProcessingError`
with the fixed message prefix. -/
def extract_pdf_text (env : UploadEnv) (file_content : Bytes) : Except String String :=
  match env.pdf_pages file_content with
  | Except.ok pages =>
      Except.ok (trimStr (joinWith "" (pages.map (fun p => p ++ "\n"))))
  | Except.error e => Except.error ("Failed to extract PDF text: " ++ e)

/-- `AIService.count_pdf_pages`. -/
def count_pdf_pages (env : UploadEnv) (file_content : Bytes) : Except String Nat :=
  match env.pdf_pages file_content with
  | Except.ok pages => Except.ok pages.length
  | Except.error e => Except.error ("Failed to count PDF pages: " ++ e)

/-- `AIService.extract_image_text` (OCR oracle). -/
def extract_image_text (env : UploadEnv) (file_content : Bytes) : Except String String :=
  match env.image_to_string file_content with
  | Except.ok t => Except.ok (trimStr t)
  | Except.error e => Except.error ("Failed to extract image text: " ++ e)

/-- `AIService.get_image_dimensions`. -/
def get_image_dimensions (env : UploadEnv) (file_content : Bytes) :
    Except String (Nat × Nat) :=
  match env.image_size file_content with
  | Except.ok wh => Except.ok wh
  | Except.error e => Except.error ("Failed to get image dimensions: " ++ e)

/-- `AIService.extract_video_text`: a stub that returns a fixed placeholder
string (it neither raises nor inspects the bytes). -/
def extract_video_text (_file_content : Bytes) : String :=
  "Video text extraction not implemented yet"

/-- `AIService.get_video_duration`: a stub returning 0 seconds. -/
def get_video_duration (_file_content : Bytes) : Nat := 0

/-! ## UploadService (upload_service.py, lines 114-208) -/

/-- The processing-related columns of the `Upload` row.  The service writes
`upload.metadata`; that attribute is modelled as the `metadata` field. -/
structure Upload where
  type : String
  url : String
  status : String
  processing_error : Option String
  processed_at : Option Nat
  metadata : Dict
  deriving DecidableEq

/-- The dict `_extract_metadata` starts from. -/
def initial_metadata : Dict :=
  [("keywords", PVal.strList []), ("language", PVal.str "it")]

/-- The per-file-type dispatch inside the try block of `_extract_metadata`.
An `Except.error m` is an exception raised while the local dict was `m`
(the enclosing `except: pass` then returns `m` as built so far). -/
def extract_metadata_dispatch (env : UploadEnv) (m : Dict) (file_content : Bytes)
    (file_type : String) : Except Dict Dict :=
  if file_type = "pdf" then
    match extract_pdf_text env file_content with
    | Except.error _ => Except.error m
    | Except.ok text =>
      let m := dictSet m "extracted_text" (PVal.str text)
      match count_pdf_pages env file_content with
      | Except.error _ => Except.error m
      | Except.ok n => Except.ok (dictSet m "pages" (PVal.num n))
  else if file_type = "image" then
    match extract_image_text env file_content with
    | Except.error _ => Except.error m
    | Except.ok text =>
      let m := dictSet m "extracted_text" (PVal.str text)
      match get_image_dimensions env file_content with
      | Except.error _ => Except.error m
      | Except.ok wh => Except.ok (dictSet m "dimensions" (PVal.dims wh.1 wh.2))
  else if file_type = "video" then
    let m := dictSet m "extracted_text" (PVal.str (extract_video_text file_content))
    Except.ok (dictSet m "duration" (PVal.num (get_video_duration file_content)))
  else if file_type = "text" then
    match env.decode_utf8 file_content with
    | Except.error _ => Except.error m
    | Except.ok text => Except.ok (dictSet m "extracted_text" (PVal.str text))
  else Except.ok m

/-- The `if metadata.get("extracted_text"):` analyzer block at the end of
the try block of `_extract_metadata`: summary, keywords, then language (none of the
three can raise - the two AI-backed ones absorb their failures
internally). -/
def analyze_block (s : Settings) (ai : AIEnv) (m : Dict) : Dict :=
  match dictGet m "extracted_text" with
  | some (PVal.str t) =>
    if t.data.isEmpty then m
    else
      let m := dictSet m "summary" (PVal.str (generate_summary s ai t))
      let m := dictSet m "keywords" (PVal.strList (extract_keywords s ai t))
      dictSet m "language" (PVal.str (detect_language t))
  | _ => m

/-- `UploadService._extract_metadata`: any exception inside the `try` is
swallowed (`except: pass`) and the dict built so far is returned; in
particular this function itself never raises. -/
def extract_metadata (env : UploadEnv) (s : Settings) (ai : AIEnv)
    (file_content : Bytes) (file_type : String) : Dict :=
  match extract_metadata_dispatch env initial_metadata file_content file_type with
  | Except.error m => m
  | Except.ok m => analyze_block s ai m

/-- The message of the NameError raised by evaluating datetime.utcnow() in
`_process_file_async`: upload_service.py imports os, uuid, typing,
sqlalchemy, fastapi and app modules, but never the datetime module, so the
name is unresolvable at that line. -/
def name_error_msg : String :=
  "name " ++ apos ++ "datetime" ++ apos ++ " is not defined"

/-- Evaluating the expression datetime.utcnow() inside
`_process_file_async`: it unconditionally raises NameError (see
`name_error_msg`); it never yields a timestamp. -/
def datetime_utcnow : Except String Nat := Except.error name_error_msg

/-- `UploadService._process_file_async`: download, extract metadata, then
assign `metadata` and `status := "completed"`; the next statement assigns
`processed_at` from datetime.utcnow(), which raises NameError because the
module never imports datetime, so the except handler overwrites the status
with "failed" and records the NameError message - the metadata assignment
survives into the committed state and `processed_at` is never set.  A
failing download reaches the same handler with the download exception
instead (before any assignment). -/
def process_file_async (env : UploadEnv) (s : Settings) (ai : AIEnv)
    (u : Upload) : Upload :=
  match env.download_file u.url with
  | Except.error e => { u with status := "failed", processing_error := some e }
  | Except.ok file_content =>
    let md := extract_metadata env s ai file_content u.type
    let u := { u with metadata := md, status := "completed" }
    match datetime_utcnow with
    | Except.ok ts => { u with processed_at := some ts }
    | Except.error e => { u with status := "failed", processing_error := some e }

/-- `UploadService.process_upload` on a found upload: a completed document
is skipped unless `force_reprocess`; otherwise the status is reset to
processing and the file pipeline reruns.  The boolean is the value the
method returns. -/
def process_upload (env : UploadEnv) (s : Settings) (ai : AIEnv)
    (u : Upload) (force_reprocess : Bool) : Bool × Upload :=
  if u.status = "completed" && !force_reprocess then (true, u)
  else
    let u := { u with status := "processing" }
    (true, process_file_async env s ai u)

/-! ## Background tasks (ai_processing.py) -/

/-- The columns of a `QuizQuestion` row the task fills in (values stay
`PVal` since the dict entries are dynamically typed). -/
structure QuizQuestionRow where
  type : PVal
  question : PVal
  options : PVal
  correct_answer : PVal
  explanation : PVal
  difficulty : PVal
  points : PVal
  ai_generated : Bool
  deriving DecidableEq

/-- The `QuizQuestion(...)` constructor call in `generate_quiz_async`,
with its keyword arguments evaluated in source order (`ai_question["type"]`
first); `ai_generated` is the hard-coded `True`. -/
def build_quiz_question (q : Dict) : Except String QuizQuestionRow := do
  let t ← dictGetE q "type"
  let qu ← dictGetE q "question"
  let op ← dictGetE q "options"
  let ca ← dictGetE q "correct_answer"
  let ex ← dictGetE q "explanation"
  let df ← dictGetE q "difficulty"
  Except.ok { type := t, question := qu, options := op, correct_answer := ca,
              explanation := ex, difficulty := df,
              points := dictGetD q "points" (PVal.num 1), ai_generated := true }

/-- The `for ai_question in ai_questions` loop: the first raised `KeyError`
aborts the whole batch. -/
def build_quiz_questions : List Dict → Except String (List QuizQuestionRow)
  | [] => Except.ok []
  | q :: rest => do
    let r ← build_quiz_question q
    let rs ← build_quiz_questions rest
    Except.ok (r :: rs)

/-- Outcome of a task: its returned status/message plus the rows the final
`db.commit()` persisted (empty when the `except` handler ran first). -/
structure QuizTaskResult where
  status : String
  message : String
  persisted : List QuizQuestionRow
  deriving DecidableEq

/-- `generate_quiz_async` (quiz found): generate, then persist; any
exception is answered with an error result and nothing is committed. -/
def generate_quiz_async (s : Settings) (ai : AIEnv) (content difficulty : String)
    (num_questions : Nat) : QuizTaskResult :=
  match generate_quiz_questions s ai content difficulty num_questions with
  | Except.error e => ⟨"error", e, []⟩
  | Except.ok ai_questions =>
    match build_quiz_questions ai_questions with
    | Except.error e => ⟨"error", e, []⟩
    | Except.ok rows => ⟨"success", "Quiz generated successfully", rows⟩

/-- The columns of a `ConceptNode` row the task fills in. -/
structure ConceptNodeRow where
  label : PVal
  x : PVal
  y : PVal
  type : PVal
  color : PVal
  description : PVal
  examples : PVal
  ai_generated : Bool
  deriving DecidableEq

/-- The columns of a `ConceptConnection` row the task fills in. -/
structure ConceptConnectionRow where
  from_node_id : String
  to_node_id : String
  label : PVal
  type : PVal
  strength : PVal
  deriving DecidableEq

/-- `node_id_mapping.get`: dict keyed by the (arbitrary) `ai_node["id"]`
values. -/
def mappingGet : List (PVal × String) → PVal → Option String
  | [], _ => none
  | (k', v') :: rest, k => if k' = k then some v' else mappingGet rest k

/-- Python dict assignment on the temp-id mapping: replace the binding in
place (a later assignment to the same key wins), or append a new one. -/
def mappingSet : List (PVal × String) → PVal → String → List (PVal × String)
  | [], k, v => [(k, v)]
  | (k', v') :: rest, k, v =>
    if k' = k then (k, v) :: rest else (k', v') :: mappingSet rest k v

/-- The node loop of `generate_concept_map_async`, threading the mapping
built so far: node `i` is built (`ai_node["label"]` may raise `KeyError`,
the other fields have `.get` defaults, `ai_generated` is hard-coded
`True`), then `node_id_mapping` is assigned `ai_node["id"] -> str(node.id)`
with the flushed row id coming from the `gen_id` oracle. -/
def build_concept_nodes (gen_id : Nat → String) :
    List Dict → Nat → List (PVal × String) →
      Except String (List ConceptNodeRow × List (PVal × String))
  | [], _, mp => Except.ok ([], mp)
  | nd :: rest, i, mp => do
    let lb ← dictGetE nd "label"
    let node : ConceptNodeRow :=
      { label := lb,
        x := dictGetD nd "x" (PVal.num (i * 100)),
        y := dictGetD nd "y" (PVal.num (i * 100)),
        type := dictGetD nd "type" (PVal.str "main"),
        color := dictGetD nd "color" (PVal.str "#3B82F6"),
        description := dictGetD nd "description" (PVal.str ""),
        examples := dictGetD nd "examples" (PVal.strList []),
        ai_generated := true }
    let idv ← dictGetE nd "id"
    let p ← build_concept_nodes gen_id rest (i + 1) (mappingSet mp idv (gen_id i))
    Except.ok (node :: p.1, p.2)

/-- The connection loop of `generate_concept_map_async`: `from`/`to` are
indexed (possible `KeyError`), looked up in the mapping, and the row is
only added when both resolved ids are truthy (non-`None`, non-empty). -/
def build_concept_connections (mapping : List (PVal × String)) :
    List Dict → Except String (List ConceptConnectionRow)
  | [] => Except.ok []
  | c :: rest => do
    let f ← dictGetE c "from"
    let t ← dictGetE c "to"
    let rs ← build_concept_connections mapping rest
    match mappingGet mapping f, mappingGet mapping t with
    | some fid, some tid =>
      if !fid.data.isEmpty && !tid.data.isEmpty then
        Except.ok ({ from_node_id := fid, to_node_id := tid,
                     label := dictGetD c "label" (PVal.str ""),
                     type := dictGetD c "type" (PVal.str "direct"),
                     strength := dictGetD c "strength" (PVal.num 1) } :: rs)
      else Except.ok rs
    | _, _ => Except.ok rs

/-- Outcome of the concept-map task, with the rows its single final commit
persisted. -/
structure MapTaskResult where
  status : String
  message : String
  nodes : List ConceptNodeRow
  connections : List ConceptConnectionRow
  deriving DecidableEq

/-- `generate_concept_map_async` (concept map found). -/
def generate_concept_map_async (s : Settings) (ai : AIEnv) (gen_id : Nat → String)
    (content : String) : MapTaskResult :=
  match generate_concept_map s ai content with
  | Except.error e => ⟨"error", e, [], []⟩
  | Except.ok cm =>
    match build_concept_nodes gen_id cm.nodes 0 [] with
    | Except.error e => ⟨"error", e, [], []⟩
    | Except.ok nm =>
      match build_concept_connections nm.2 cm.connections with
      | Except.error e => ⟨"error", e, [], []⟩
      | Except.ok cs => ⟨"success", "Concept map generated successfully", nm.1, cs⟩

/-! ## Concrete test fixtures -/

/-- A configuration with no AI credential (deterministic fallback mode). -/
def noKey : Settings := ⟨none⟩

/-- An AI backend that is unreachable: every chat call and every parse
raises. -/
def offlineAI : AIEnv :=
  { summary_chat := fun _ => Except.error "AI unavailable",
    keywords_chat := fun _ => Except.error "AI unavailable",
    quiz_chat := fun _ _ _ => Except.error "AI unavailable",
    map_chat := fun _ => Except.error "AI unavailable",
    json_loads_quiz := fun _ => Except.error "Expecting value",
    json_loads_map := fun _ => Except.error "Expecting value" }

/-- A storage/library environment whose stored bytes are not a valid PDF
container: the download succeeds, the PDF parse raises. -/
def corruptPdfEnv : UploadEnv :=
  { download_file := fun _ => Except.ok "NOT-A-PDF",
    pdf_pages := fun _ => Except.error "EOF marker not found",
    image_to_string := fun _ => Except.error "cannot identify image file",
    image_size := fun _ => Except.error "cannot identify image file",
    decode_utf8 := fun b => Except.ok b }

/-- A processing upload of declared kind pdf. -/
def pdfUpload : Upload :=
  { type := "pdf", url := "u1", status := "processing",
    processing_error := none, processed_at := none, metadata := [] }

/-- An environment for the reprocessing scenario: the stored bytes decode
to a new text. -/
def reprocessEnv : UploadEnv :=
  { download_file := fun _ => Except.ok "Nuovo testo del documento caricato.",
    pdf_pages := fun _ => Except.error "EOF marker not found",
    image_to_string := fun _ => Except.error "cannot identify image file",
    image_size := fun _ => Except.error "cannot identify image file",
    decode_utf8 := fun b => Except.ok b }

/-- A completed text upload carrying the metadata of a first attempt. -/
def completedUpload : Upload :=
  { type := "text", url := "u2", status := "completed",
    processing_error := none, processed_at := some 1,
    metadata := [("keywords", PVal.strList ["vecchio"]), ("language", PVal.str "en"),
                 ("extracted_text", PVal.str "Vecchio testo."),
                 ("summary", PVal.str "Vecchio testo.")] }

/-- A text with exactly two sentences longer than 20 characters (among five
non-empty sentences). -/
def twoQualifying : String :=
  "This sentence is definitely long enough. Yes. No. Another sufficiently long sentence here. Ok."

/-- The first qualifying sentence of `twoQualifying`, as stripped by the
quiz fallback. -/
def twoQualifyingFirst : String := "This sentence is definitely long enough"

/-- The Italian three-sentence example of the specification. -/
def italExample : String := "Il gatto mangia. Il cane corre. Gli uccelli volano."

/-- The frequency table built by `_extract_simple_keywords` (insertion
order = first occurrence). -/
def word_freq_table (text : String) : List (String × Nat) :=
  (findWords (lowerStr text)).foldl
    (fun f w => if 3 < w.length then bumpFreq f w else f) []

/-! ## Helper lemmas -/

theorem mkSimpleQuestion_type_none (s : String) :
    dictGet (mkSimpleQuestion s) "type" = none := rfl

theorem mappingGet_mem (m : List (PVal × String)) (k : PVal) (v : String)
    (h : mappingGet m k = some v) : v ∈ m.map Prod.snd := by
  induction m with
  | nil => simp [mappingGet] at h
  | cons p rest ih =>
    obtain ⟨k', v'⟩ := p
    by_cases hk : k' = k
    · simp [mappingGet, hk] at h
      simp [h]
    · simp [mappingGet, hk] at h
      simp [ih h]

theorem mem_insertDescFreq (p x : String × Nat) (l : List (String × Nat))
    (h : x ∈ insertDescFreq p l) : x = p ∨ x ∈ l := by
  induction l with
  | nil => simpa [insertDescFreq] using h
  | cons q rest ih =>
    by_cases hq : q.2 > p.2
    · simp [insertDescFreq, hq] at h
      rcases h with h | h
      · exact Or.inr (by simp [h])
      · rcases ih h with h | h
        · exact Or.inl h
        · exact Or.inr (by simp [h])
    · simp [insertDescFreq, hq] at h
      rcases h with h | h | h
      · exact Or.inl h
      · exact Or.inr (by simp [h])
      · exact Or.inr (by simp [h])

theorem mem_sortByFreq (x : String × Nat) (l : List (String × Nat))
    (h : x ∈ sortByFreq l) : x ∈ l := by
  induction l with
  | nil => simp [sortByFreq] at h
  | cons p rest ih =>
    rcases mem_insertDescFreq p x (sortByFreq rest) h with h' | h'
    · simp [h']
    · simp [ih h']

theorem mem_bumpFreq (f : List (String × Nat)) (w : String) (x : String × Nat)
    (h : x ∈ bumpFreq f w) : x.1 = w ∨ x ∈ f := by
  induction f with
  | nil => simp [bumpFreq] at h; simp [h]
  | cons p rest ih =>
    obtain ⟨w', n⟩ := p
    by_cases hw : w' = w
    · simp [bumpFreq, hw] at h
      rcases h with h | h
      · simp [h]
      · exact Or.inr (by simp [h])
    · simp [bumpFreq, hw] at h
      rcases h with h | h
      · exact Or.inr (by simp [h])
      · rcases ih h with h' | h'
        · exact Or.inl h'
        · exact Or.inr (by simp [h'])

theorem mem_freqFold (ws : List String) (f : List (String × Nat)) (x : String × Nat)
    (h : x ∈ ws.foldl (fun f w => if 3 < w.length then bumpFreq f w else f) f) :
    x ∈ f ∨ (x.1 ∈ ws ∧ 3 < x.1.length) := by
  induction ws generalizing f with
  | nil => exact Or.inl h
  | cons w rest ih =>
    simp only [List.foldl_cons] at h
    by_cases hw : 3 < w.length
    · rw [if_pos hw] at h
      rcases ih (bumpFreq f w) h with h' | h'
      · rcases mem_bumpFreq f w x h' with h'' | h''
        · exact Or.inr ⟨by simp [h''], by rwa [h'']⟩
        · exact Or.inl h''
      · exact Or.inr ⟨by simp [h'.1], h'.2⟩
    · rw [if_neg hw] at h
      rcases ih f h with h' | h'
      · exact Or.inl h'
      · exact Or.inr ⟨by simp [h'.1], h'.2⟩

theorem insertDescFreq_perm (p : String × Nat) (l : List (String × Nat)) :
    (insertDescFreq p l).Perm (p :: l) := by
  induction l with
  | nil => simp [insertDescFreq]
  | cons q rest ih =>
    by_cases hq : q.2 > p.2
    · rw [insertDescFreq, if_pos hq]
      exact (ih.cons q).trans (List.Perm.swap p q rest)
    · rw [insertDescFreq, if_neg hq]

theorem sortByFreq_perm (l : List (String × Nat)) : (sortByFreq l).Perm l := by
  induction l with
  | nil => rfl
  | cons p rest ih =>
    exact (insertDescFreq_perm p (sortByFreq rest)).trans (ih.cons p)

theorem sortByFreq_sorted_aux (p : String × Nat) (l : List (String × Nat))
    (hl : l.Pairwise (fun a b => b.2 ≤ a.2)) :
    (insertDescFreq p l).Pairwise (fun a b => b.2 ≤ a.2) := by
  induction l with
  | nil => simp [insertDescFreq]
  | cons q rest ih =>
    rcases List.pairwise_cons.mp hl with ⟨hq1, hq2⟩
    by_cases hq : q.2 > p.2
    · rw [insertDescFreq, if_pos hq]
      refine List.pairwise_cons.mpr ⟨?_, ih hq2⟩
      intro x hx
      rcases mem_insertDescFreq p x rest hx with h | h
      · subst h; omega
      · exact hq1 x h
    · rw [insertDescFreq, if_neg hq]
      refine List.pairwise_cons.mpr ⟨?_, hl⟩
      intro x hx
      rcases List.mem_cons.mp hx with h | h
      · subst h; omega
      · exact le_trans (hq1 x h) (by omega)

theorem sortByFreq_sorted (l : List (String × Nat)) :
    (sortByFreq l).Pairwise (fun a b => b.2 ≤ a.2) := by
  induction l with
  | nil => simp [sortByFreq]
  | cons p rest ih => exact sortByFreq_sorted_aux p (sortByFreq rest) ih

theorem generate_simple_quiz_eq (content : String) (n : Nat) :
    generate_simple_quiz content n =
      (((quizSentences content).take n).filter (fun s => 20 < s.length)).map
        mkSimpleQuestion := rfl

theorem extract_simple_keywords_eq (text : String) :
    extract_simple_keywords text =
      ((sortByFreq ((findWords (lowerStr text)).foldl
          (fun f w => if 3 < w.length then bumpFreq f w else f) [])).take 10).map
        Prod.fst := rfl

/-! ## Claim theorems -/

/-- C5: the deterministic quiz fallback returns at most `n` questions, no
more questions than there are qualifying (strictly longer than 20
characters) sentences, every returned question is built from such a
sentence, and a text with exactly two qualifying sentences yields exactly
two questions at `n = 5`. -/
theorem simple_quiz_bounds (content : String) (n : Nat) :
    (generate_simple_quiz content n).length ≤ n ∧
    (generate_simple_quiz content n).length ≤
      ((quizSentences content).filter (fun s => 20 < s.length)).length ∧
    (∀ q ∈ generate_simple_quiz content n,
      ∃ s, s ∈ quizSentences content ∧ 20 < s.length ∧ q = mkSimpleQuestion s) ∧
    (generate_simple_quiz twoQualifying 5).length = 2 := by
  refine ⟨?_, ?_, ?_, by decide⟩
  · rw [generate_simple_quiz_eq]
    simp only [List.length_map]
    refine le_trans (List.length_filter_le _ _) ?_
    rw [List.length_take]
    exact min_le_left _ _
  · rw [generate_simple_quiz_eq]
    simp only [List.length_map]
    exact ((List.take_sublist n _).filter _).length_le
  · intro q hq
    rw [generate_simple_quiz_eq] at hq
    obtain ⟨s, hs, rfl⟩ := List.mem_map.mp hq
    have hs' := List.mem_filter.mp hs
    exact ⟨s, List.mem_of_mem_take hs'.1, by simpa using hs'.2, rfl⟩

theorem simple_quiz_bounds_witness :
    (generate_simple_quiz twoQualifying 5).length ≤ 5 ∧
    (∃ s, s ∈ quizSentences twoQualifying ∧ 20 < s.length ∧
      mkSimpleQuestion twoQualifyingFirst = mkSimpleQuestion s) :=
  ⟨(simple_quiz_bounds twoQualifying 5).1,
   (simple_quiz_bounds twoQualifying 5).2.2.1 (mkSimpleQuestion twoQualifyingFirst)
     (by decide)⟩

/-- C6: the deterministic keyword fallback returns at most 10 keywords,
each taken from the tokens of the lowered text that are strictly longer
than 3 characters, and on the Italian three-sentence example it returns
exactly the six content words (frequency ties kept in first-seen
order). -/
theorem simple_keywords_spec (text : String) :
    (extract_simple_keywords text).length ≤ 10 ∧
    (∀ w ∈ extract_simple_keywords text, w ∈ findWords (lowerStr text) ∧ 3 < w.length) ∧
    (sortByFreq (word_freq_table text)).Pairwise (fun a b => b.2 ≤ a.2) ∧
    (sortByFreq (word_freq_table text)).Perm (word_freq_table text) ∧
    extract_simple_keywords italExample =
      ["gatto", "mangia", "cane", "corre", "uccelli", "volano"] := by
  refine ⟨?_, ?_, sortByFreq_sorted _, sortByFreq_perm _, by decide⟩
  · rw [extract_simple_keywords_eq]
    simp only [List.length_map]
    rw [List.length_take]
    exact min_le_left _ _
  · intro w hw
    rw [extract_simple_keywords_eq] at hw
    obtain ⟨p, hp, rfl⟩ := List.mem_map.mp hw
    have h2 := mem_sortByFreq p _ (List.mem_of_mem_take hp)
    rcases mem_freqFold _ [] p h2 with h | h
    · simp at h
    · exact h

theorem simple_keywords_spec_witness :
    "gatto" ∈ findWords (lowerStr italExample) ∧ 3 < "gatto".length :=
  (simple_keywords_spec italExample).2.1 "gatto" (by decide)

/-- C7 counterexample: on the empty text both function-word counts are
equal (a tie) and the detector returns "en", not the first enumerated
language "it" as claimed. -/
theorem detect_language_tie_cex :
    langWordCount (lowerStr "") italian_words = langWordCount (lowerStr "") english_words ∧
    detect_language "" ≠ "it" ∧ detect_language "" = "en" := by decide

/-- C7 (amended): the fallback language detector counts how many of the
fixed Italian and English function words occur in the lowered text and
returns "it" exactly when the Italian count is strictly higher; on a tie
(or a higher English count) it returns "en". -/
theorem detect_language_threshold (text : String) :
    (langWordCount (lowerStr text) italian_words >
        langWordCount (lowerStr text) english_words →
      detect_language text = "it") ∧
    (langWordCount (lowerStr text) italian_words ≤
        langWordCount (lowerStr text) english_words →
      detect_language text = "en") := by
  constructor
  · intro h
    simp [detect_language, h]
  · intro h
    simp [detect_language, Nat.not_lt.mpr h]

theorem detect_language_threshold_witness :
    detect_language "il la di" = "it" ∧ detect_language "" = "en" :=
  ⟨(detect_language_threshold "il la di").1 (by decide),
   (detect_language_threshold "").2 (by decide)⟩

/-- C9 counterexample: the video extraction stub does not return empty
text; it returns a fixed non-empty placeholder sentence. -/
theorem video_stub_cex :
    extract_video_text "rawvideobytes" ≠ "" ∧ get_video_duration "rawvideobytes" = 0 := by
  decide

/-- C9 (amended): for every byte input of kind video, extraction returns
the fixed placeholder string "Video text extraction not implemented yet"
(non-empty) and a duration of 0 seconds; neither stub raises. -/
theorem video_stub_fixed_output (b : Bytes) :
    extract_video_text b = "Video text extraction not implemented yet" ∧
    get_video_duration b = 0 := ⟨rfl, rfl⟩

theorem except_ok_bind {α β ε : Type} (a : α) (f : α → Except ε β) :
    (Except.ok a >>= f : Except ε β) = f a := rfl

theorem except_error_bind {α β ε : Type} (e : ε) (f : α → Except ε β) :
    (Except.error e >>= f : Except ε β) = Except.error e := rfl

/-- C1 counterexample: ingesting a PDF upload whose bytes are not a valid
PDF container does end "failed" with a non-empty error, but the stored
message is the NameError message of the unimported datetime name raised on
the success path - not the extraction exception message the claim asserts
is stored verbatim - and the partial initial metadata record is persisted
for the attempt rather than being absent. -/
theorem corrupt_pdf_wrong_error_cex :
    (process_file_async corruptPdfEnv noKey offlineAI pdfUpload).status = "failed" ∧
    (process_file_async corruptPdfEnv noKey offlineAI pdfUpload).processing_error
      = some name_error_msg ∧
    (process_file_async corruptPdfEnv noKey offlineAI pdfUpload).processing_error
      ≠ some ("Failed to extract PDF text: " ++ "EOF marker not found") ∧
    (process_file_async corruptPdfEnv noKey offlineAI pdfUpload).metadata
      = initial_metadata ∧
    (process_file_async corruptPdfEnv noKey offlineAI pdfUpload).metadata ≠ [] := by
  decide

/-- C1 (amended): for every ingestion of a PDF-kind upload whose bytes the
PDF parser rejects, the extraction error is caught and swallowed inside
`_extract_metadata`; the success path of `_process_file_async` then raises
NameError at the `processed_at` assignment (the module never imports
datetime), so the upload ends "failed" with that NameError message as its
non-empty `processing_error` - not the extraction exception message -
while the partial initial metadata record (empty keywords, language "it",
no extracted text) is persisted for the attempt and `processed_at` is
never set. -/
theorem pdf_failure_records_name_error (env : UploadEnv) (s : Settings) (ai : AIEnv)
    (u : Upload) (c : Bytes) (e : String)
    (hty : u.type = "pdf")
    (hdl : env.download_file u.url = Except.ok c)
    (hpdf : env.pdf_pages c = Except.error e) :
    (process_file_async env s ai u).status = "failed" ∧
    (process_file_async env s ai u).processing_error = some name_error_msg ∧
    (process_file_async env s ai u).metadata = initial_metadata ∧
    (process_file_async env s ai u).processed_at = u.processed_at := by
  have hmeta : extract_metadata env s ai c u.type = initial_metadata := by
    unfold extract_metadata extract_metadata_dispatch extract_pdf_text
    rw [hty, hpdf]
    simp
  unfold process_file_async
  rw [hdl]
  simp [hmeta, datetime_utcnow]

theorem pdf_failure_records_name_error_witness :
    (process_file_async corruptPdfEnv noKey offlineAI pdfUpload).status = "failed" ∧
    (process_file_async corruptPdfEnv noKey offlineAI pdfUpload).processing_error
      = some name_error_msg ∧
    (process_file_async corruptPdfEnv noKey offlineAI pdfUpload).metadata
      = initial_metadata ∧
    (process_file_async corruptPdfEnv noKey offlineAI pdfUpload).processed_at
      = pdfUpload.processed_at :=
  pdf_failure_records_name_error corruptPdfEnv noKey offlineAI pdfUpload "NOT-A-PDF"
    "EOF marker not found" rfl rfl rfl

/-- C3: reprocessing a completed document with `force_reprocess = true`
stores exactly the fresh metadata computed from the downloaded content -
the record is assigned as a whole (before the NameError raised at the
`processed_at` line, so it survives into the state the except-branch
commit persists), and the result does not depend on the metadata of the
prior attempt in any way. -/
theorem force_reprocess_replaces_metadata (env : UploadEnv) (s : Settings) (ai : AIEnv)
    (u : Upload) (c : Bytes) (M1' : Dict)
    (_hst : u.status = "completed")
    (hdl : env.download_file u.url = Except.ok c) :
    ((process_upload env s ai u true).2).metadata = extract_metadata env s ai c u.type ∧
    ((process_upload env s ai { u with metadata := M1' } true).2).metadata =
      ((process_upload env s ai u true).2).metadata := by
  unfold process_upload process_file_async
  simp [hdl, datetime_utcnow]

theorem force_reprocess_replaces_metadata_witness :
    ((process_upload reprocessEnv noKey offlineAI completedUpload true).2).metadata =
      extract_metadata reprocessEnv noKey offlineAI
        "Nuovo testo del documento caricato." completedUpload.type ∧
    ((process_upload reprocessEnv noKey offlineAI
        { completedUpload with metadata := [] } true).2).metadata =
      ((process_upload reprocessEnv noKey offlineAI completedUpload true).2).metadata :=
  force_reprocess_replaces_metadata reprocessEnv noKey offlineAI completedUpload
    "Nuovo testo del documento caricato." [] rfl rfl

/-- C8: with no AI credential configured the concept-map task runs the
deterministic fallback path, yet every node row it persists carries
`ai_generated = true` - the provenance flag is hard-coded, not tied to the
path that produced the content. -/
theorem fallback_output_marked_ai_generated :
    (generate_concept_map_async noKey offlineAI strOfNat "concetto fondamentale").status
      = "success" ∧
    (generate_concept_map_async noKey offlineAI strOfNat "concetto fondamentale").nodes
      ≠ [] ∧
    ((generate_concept_map_async noKey offlineAI strOfNat
        "concetto fondamentale").nodes.all (fun nd => nd.ai_generated)) = true := by
  decide

/-- C10: in fallback mode (no AI credential) every question dict produced
by the simple quiz generator lacks the "type" key, so whenever the
fallback yields at least one question the persistence loop of the quiz task
raises `KeyError` before any commit: the task returns an error result and
persists no questions. -/
theorem fallback_quiz_never_persisted (s : Settings) (ai : AIEnv)
    (content difficulty : String) (n : Nat)
    (hk : s.OPENAI_API_KEY = none)
    (hne : generate_simple_quiz content n ≠ []) :
    (∀ q ∈ generate_simple_quiz content n, dictGet q "type" = none) ∧
    (generate_quiz_async s ai content difficulty n).status = "error" ∧
    (generate_quiz_async s ai content difficulty n).persisted = [] := by
  have hkey : s.keySet = false := by simp [Settings.keySet, hk, truthyOptStr]
  have hgen : generate_quiz_questions s ai content difficulty n =
      Except.ok (generate_simple_quiz content n) := by
    unfold generate_quiz_questions
    rw [hkey]
    simp
  have hmem : ∀ q ∈ generate_simple_quiz content n, dictGet q "type" = none := by
    intro q hq
    rw [generate_simple_quiz_eq] at hq
    obtain ⟨t, _, rfl⟩ := List.mem_map.mp hq
    exact mkSimpleQuestion_type_none t
  refine ⟨hmem, ?_⟩
  cases hl : generate_simple_quiz content n with
  | nil => exact absurd hl hne
  | cons q rest =>
    have hq : dictGet q "type" = none := hmem q (by rw [hl]; simp)
    obtain ⟨e, he⟩ : ∃ e, build_quiz_questions (q :: rest) = Except.error e := by
      refine ⟨"KeyError: " ++ "type", ?_⟩
      simp [build_quiz_questions, build_quiz_question, dictGetE, hq, except_error_bind]
    unfold generate_quiz_async
    rw [hgen, hl]
    simp [he]

theorem fallback_quiz_never_persisted_witness :
    dictGet (mkSimpleQuestion twoQualifyingFirst) "type" = none ∧
    (generate_quiz_async noKey offlineAI twoQualifying "medium" 5).status = "error" ∧
    (generate_quiz_async noKey offlineAI twoQualifying "medium" 5).persisted = [] := by
  have h := fallback_quiz_never_persisted noKey offlineAI twoQualifying "medium" 5
    rfl (by decide)
  exact ⟨h.1 (mkSimpleQuestion twoQualifyingFirst) (by decide), h.2.1, h.2.2⟩

theorem generate_summary_absorbs_failure (s : Settings) (ai : AIEnv) (msg t : String) :
    generate_summary s { ai with summary_chat := fun _ => Except.error msg } t =
      generate_simple_summary t := by
  unfold generate_summary
  cases s.keySet <;> simp

/-- C2: the quiz and concept-map generators always return a result - an
AI-produced one or the deterministic fallback - and never propagate an
AI-backend failure (the `Except.error` channel of the model is never
produced); and a failing summary-generation backend still lets the
analyzer block record keywords and language (with the summary falling back
to the deterministic one). -/
theorem generation_absorbs_ai_failures (s : Settings) (ai : AIEnv)
    (content difficulty : String) (n : Nat) (msg t : String)
    (ht : t.data ≠ []) :
    (∃ qs, generate_quiz_questions s ai content difficulty n = Except.ok qs ∧
      (qs = generate_simple_quiz content n ∨
        ∃ reply, ai.json_loads_quiz reply = Except.ok qs)) ∧
    (∃ cm, generate_concept_map s ai content = Except.ok cm ∧
      (cm = generate_simple_concept_map content ∨
        ∃ reply, ai.json_loads_map reply = Except.ok cm)) ∧
    (dictGet (analyze_block s { ai with summary_chat := fun _ => Except.error msg }
        (dictSet initial_metadata "extracted_text" (PVal.str t))) "summary" =
      some (PVal.str (generate_simple_summary t)) ∧
     dictGet (analyze_block s { ai with summary_chat := fun _ => Except.error msg }
        (dictSet initial_metadata "extracted_text" (PVal.str t))) "keywords" =
      some (PVal.strList (extract_keywords s
        { ai with summary_chat := fun _ => Except.error msg } t)) ∧
     dictGet (analyze_block s { ai with summary_chat := fun _ => Except.error msg }
        (dictSet initial_metadata "extracted_text" (PVal.str t))) "language" =
      some (PVal.str (detect_language t))) := by
  refine ⟨?_, ?_, ?_⟩
  · unfold generate_quiz_questions
    split
    · exact ⟨_, rfl, Or.inl rfl⟩
    · split
      · exact ⟨_, rfl, Or.inl rfl⟩
      · next reply _ =>
        split
        · exact ⟨_, rfl, Or.inl rfl⟩
        · next qs hj => exact ⟨qs, rfl, Or.inr ⟨trimStr reply, hj⟩⟩
  · unfold generate_concept_map
    split
    · exact ⟨_, rfl, Or.inl rfl⟩
    · split
      · exact ⟨_, rfl, Or.inl rfl⟩
      · next reply _ =>
        split
        · exact ⟨_, rfl, Or.inl rfl⟩
        · next cm hj => exact ⟨cm, rfl, Or.inr ⟨trimStr reply, hj⟩⟩
  · have hsum := generate_summary_absorbs_failure s ai msg t
    have hemp : t.data.isEmpty = false := by
      cases h : t.data with
      | nil => exact absurd h ht
      | cons a l => rfl
    simp [analyze_block, initial_metadata, dictSet, dictGet, hsum, hemp]

theorem generation_absorbs_ai_failures_witness :
    (∃ qs, generate_quiz_questions noKey offlineAI italExample "medium" 5 = Except.ok qs ∧
      (qs = generate_simple_quiz italExample 5 ∨
        ∃ reply, offlineAI.json_loads_quiz reply = Except.ok qs)) ∧
    (∃ cm, generate_concept_map noKey offlineAI italExample = Except.ok cm ∧
      (cm = generate_simple_concept_map italExample ∨
        ∃ reply, offlineAI.json_loads_map reply = Except.ok cm)) ∧
    (dictGet (analyze_block noKey
        { offlineAI with summary_chat := fun _ => Except.error "boom" }
        (dictSet initial_metadata "extracted_text" (PVal.str "Testo di prova")))
        "summary" = some (PVal.str (generate_simple_summary "Testo di prova")) ∧
     dictGet (analyze_block noKey
        { offlineAI with summary_chat := fun _ => Except.error "boom" }
        (dictSet initial_metadata "extracted_text" (PVal.str "Testo di prova")))
        "keywords" = some (PVal.strList (extract_keywords noKey
          { offlineAI with summary_chat := fun _ => Except.error "boom" }
          "Testo di prova")) ∧
     dictGet (analyze_block noKey
        { offlineAI with summary_chat := fun _ => Except.error "boom" }
        (dictSet initial_metadata "extracted_text" (PVal.str "Testo di prova")))
        "language" = some (PVal.str (detect_language "Testo di prova"))) :=
  generation_absorbs_ai_failures noKey offlineAI italExample "medium" 5 "boom"
    "Testo di prova" (by decide)

theorem simple_concept_map_nodes (content : String) :
    (generate_simple_concept_map content).nodes =
      (uniqueWords content).enum.map (fun p => mkSimpleNode p.1 p.2) := rfl

theorem simple_concept_map_conns (content : String) :
    (generate_simple_concept_map content).connections =
      (List.range ((generate_simple_concept_map content).nodes.length - 1)).map
        mkSimpleConn := rfl

theorem nodeIds_eq (content : String) :
    (generate_simple_concept_map content).nodes.filterMap (fun nd => dictGet nd "id") =
      (List.range (generate_simple_concept_map content).nodes.length).map
        (fun i => PVal.str (strOfNat i)) := by
  rw [simple_concept_map_nodes, List.filterMap_map]
  have h1 : (fun nd => dictGet nd "id") ∘ (fun p : Nat × String => mkSimpleNode p.1 p.2)
      = some ∘ (fun p : Nat × String => PVal.str (strOfNat p.1)) := by
    funext p; rfl
  rw [h1, List.filterMap_eq_map]
  have h2 : (fun p : Nat × String => PVal.str (strOfNat p.1))
      = (fun i : Nat => PVal.str (strOfNat i)) ∘ Prod.fst := rfl
  rw [h2, ← List.map_map, List.enum_map_fst]
  simp [simple_concept_map_nodes]

/-- C4: every edge of the deterministic concept-map fallback has both
endpoint ids among the emitted node ids (the linear chain from node `i` to
node `i + 1`), and every connection row the persistence loop commits
resolves both endpoints through the temp-id mapping - an edge whose temp
id is unmapped is dropped, never stored dangling. -/
theorem concept_edges_never_dangling :
    (∀ content c, c ∈ (generate_simple_concept_map content).connections →
      ∃ f t : String, dictGet c "from" = some (PVal.str f) ∧
        dictGet c "to" = some (PVal.str t) ∧
        PVal.str f ∈ (generate_simple_concept_map content).nodes.filterMap
          (fun nd => dictGet nd "id") ∧
        PVal.str t ∈ (generate_simple_concept_map content).nodes.filterMap
          (fun nd => dictGet nd "id")) ∧
    (∀ mapping conns pcs, build_concept_connections mapping conns = Except.ok pcs →
      ∀ pc ∈ pcs, pc.from_node_id ∈ mapping.map Prod.snd ∧
        pc.to_node_id ∈ mapping.map Prod.snd) := by
  constructor
  · intro content c hc
    rw [simple_concept_map_conns] at hc
    obtain ⟨i, hi, rfl⟩ := List.mem_map.mp hc
    have hi' := List.mem_range.mp hi
    refine ⟨strOfNat i, strOfNat (i + 1), rfl, rfl, ?_, ?_⟩
    · rw [nodeIds_eq]
      exact List.mem_map.mpr ⟨i, List.mem_range.mpr (by omega), rfl⟩
    · rw [nodeIds_eq]
      exact List.mem_map.mpr ⟨i + 1, List.mem_range.mpr (by omega), rfl⟩
  · intro mapping conns
    induction conns with
    | nil =>
      intro pcs h pc hpc
      simp [build_concept_connections] at h
      subst h
      simp at hpc
    | cons c rest ih =>
      intro pcs h pc hpc
      rw [build_concept_connections] at h
      cases hf : dictGetE c "from" with
      | error e => rw [hf, except_error_bind] at h; exact absurd h (by simp)
      | ok f =>
        rw [hf, except_ok_bind] at h
        cases ht : dictGetE c "to" with
        | error e => rw [ht, except_error_bind] at h; exact absurd h (by simp)
        | ok t =>
          rw [ht, except_ok_bind] at h
          cases hrs : build_concept_connections mapping rest with
          | error e => rw [hrs, except_error_bind] at h; exact absurd h (by simp)
          | ok rs =>
            rw [hrs, except_ok_bind] at h
            cases hmf : mappingGet mapping f with
            | none =>
              rw [hmf] at h
              simp at h
              subst h
              exact ih rs hrs pc hpc
            | some fid =>
              rw [hmf] at h
              cases hmt : mappingGet mapping t with
              | none =>
                rw [hmt] at h
                simp at h
                subst h
                exact ih rs hrs pc hpc
              | some tid =>
                rw [hmt] at h
                dsimp only at h
                by_cases htr : (!fid.data.isEmpty && !tid.data.isEmpty) = true
                · rw [if_pos htr] at h
                  simp at h
                  subst h
                  rcases List.mem_cons.mp hpc with hpc' | hpc'
                  · subst hpc'
                    exact ⟨mappingGet_mem mapping f fid hmf,
                           mappingGet_mem mapping t tid hmt⟩
                  · exact ih rs hrs pc hpc'
                · rw [if_neg htr] at h
                  simp at h
                  subst h
                  exact ih rs hrs pc hpc

theorem concept_edges_never_dangling_witness :
    (∃ f t : String,
      dictGet (mkSimpleConn 0) "from" = some (PVal.str f) ∧
      dictGet (mkSimpleConn 0) "to" = some (PVal.str t) ∧
      PVal.str f ∈ (generate_simple_concept_map "concetto fondamentale").nodes.filterMap
        (fun nd => dictGet nd "id") ∧
      PVal.str t ∈ (generate_simple_concept_map "concetto fondamentale").nodes.filterMap
        (fun nd => dictGet nd "id")) ∧
    ("n0" ∈ [(PVal.str "0", "n0"), (PVal.str "1", "n1")].map Prod.snd ∧
     "n1" ∈ [(PVal.str "0", "n0"), (PVal.str "1", "n1")].map Prod.snd) :=
  ⟨concept_edges_never_dangling.1 "concetto fondamentale" (mkSimpleConn 0) (by decide),
   concept_edges_never_dangling.2 [(PVal.str "0", "n0"), (PVal.str "1", "n1")]
     [mkSimpleConn 0]
     [⟨"n0", "n1", PVal.str "related to", PVal.str "direct", PVal.num 1⟩]
     rfl
     ⟨"n0", "n1", PVal.str "related to", PVal.str "direct", PVal.num 1⟩ (by decide)⟩
